import Mathlib

/-!
Verification of the AI-Health service (`ai-health-service`), a FastAPI façade
over S3, Bedrock and Textract/Comprehend Medical.  The Python modules
`app/modules/care_plan.py`, `app/modules/file_upload.py`,
`app/modules/text_extraction.py` and the route files under `app/routes/` are
shallowly embedded below.  External AWS calls (boto3 clients) and regular
expression searches are modelled as explicit oracle parameters; everything
else (string handling, dispatch logic, dictionary updates, exception flow)
is translated directly from the source.

Python strings are modelled through their character lists (`String.data`),
so that `len`, slicing, `lower`, `strip`, membership (`in`) and `split`
match Python semantics character by character.  Python dictionaries that the
code builds by item assignment are modelled as association lists with
the Python update-in-place-or-append semantics (`dictSet`).
-/

namespace AIHealth

/-- Python `needle in hay` on strings: substring containment. -/
def pyIn (needle hay : String) : Bool :=
  decide (List.IsInfix needle.data hay.data)

/-- Python `len(s)` on strings: number of characters. -/
def pyLen (s : String) : Nat := s.data.length

/-- Python `s[:n]` on strings: the first `n` characters. -/
def pySlice (s : String) (n : Nat) : String := ⟨s.data.take n⟩

/-- The UTF-8 byte length of a Python string, as computed by encoding it
and taking `len`. -/
def utf8Len (s : String) : Nat := (s.data.map Char.utf8Size).sum

/-- Python `s.lower()` (ASCII case folding, which covers all text the
service manipulates). -/
def pyLower (s : String) : String := ⟨s.data.map Char.toLower⟩

/-- Python `s.upper()`. -/
def pyUpper (s : String) : String := ⟨s.data.map Char.toUpper⟩

/-- Python `s.strip()`: remove leading and trailing whitespace. -/
def pyStrip (s : String) : String :=
  ⟨((s.data.dropWhile Char.isWhitespace).reverse.dropWhile Char.isWhitespace).reverse⟩

/-- Python `s.split(c, 1)[1]`: everything after the first occurrence of `c`,
or `none` when `c` does not occur (in the source that case raises
`IndexError`, swallowed by the surrounding `try/except`). -/
def pySplitOnceRest (c : Char) (s : String) : Option String :=
  if s.data.contains c then
    some ⟨(s.data.dropWhile (fun d => d ≠ c)).tail⟩
  else
    none

/-- Python `s.split()`: split on whitespace runs, discarding empty parts. -/
def pySplitWs (s : String) : List String :=
  ((s.data.splitOnP Char.isWhitespace).filter (fun l => l ≠ [])).map (fun l => ⟨l⟩)

/-- Python `s.startswith(p)`. -/
def pyStartswith (p s : String) : Bool := p.data.isPrefixOf s.data

/-- Python `s.endswith(p)`. -/
def pyEndswith (p s : String) : Bool := p.data.isSuffixOf s.data

/-- Python `s.isdigit()` (ASCII digits). -/
def pyIsDigit (s : String) : Bool := s.data ≠ [] && s.data.all Char.isDigit

/-- Association-list lookup, modelling Python `d[k]` / `k in d` on the
dictionaries the service builds (which never hold duplicate keys). -/
def dictGet (kvs : List (String × α)) (k : String) : Option α :=
  match kvs with
  | [] => none
  | (a, b) :: rest => if k = a then some b else dictGet rest k

/-- Python `d[k] = v`: update in place when the key exists (keeping its
position), otherwise append the new binding. -/
def dictSet (kvs : List (String × α)) (k : String) (v : α) : List (String × α) :=
  if (dictGet kvs k).isSome then
    kvs.map (fun p => if p.1 = k then (k, v) else p)
  else
    kvs ++ [(k, v)]

/-- JSON values as decoded by Python `json.loads`.  Numbers are modelled as
rationals (the documents the service handles carry integral numbers). -/
inductive JsonValue where
  | null : JsonValue
  | bool (b : Bool) : JsonValue
  | num (q : ℚ) : JsonValue
  | str (s : String) : JsonValue
  | arr (xs : List JsonValue) : JsonValue
  | obj (kvs : List (String × JsonValue)) : JsonValue

mutual

/-- Python `str(v)` on a decoded JSON value. -/
def pyStr : JsonValue → String
  | .null => "None"
  | .bool b => if b then "True" else "False"
  | .num q => if q.den = 1 then toString q.num else toString q
  | .str s => s
  | .arr xs => "[" ++ joinComma (pyReprList xs) ++ "]"
  | .obj kvs => "\x7b" ++ joinComma (pyReprObj kvs) ++ "\x7d"

/-- Python `repr(v)` on a decoded JSON value (strings quoted). -/
def pyRepr : JsonValue → String
  | .str s => "\x27" ++ s ++ "\x27"
  | v => pyStrAux v

def pyStrAux : JsonValue → String
  | .null => "None"
  | .bool b => if b then "True" else "False"
  | .num q => if q.den = 1 then toString q.num else toString q
  | .str s => s
  | .arr xs => "[" ++ joinComma (pyReprList xs) ++ "]"
  | .obj kvs => "\x7b" ++ joinComma (pyReprObj kvs) ++ "\x7d"

def pyReprList : List JsonValue → List String
  | [] => []
  | v :: vs => pyRepr v :: pyReprList vs

def pyReprObj : List (String × JsonValue) → List String
  | [] => []
  | (k, v) :: kvs => ("\x27" ++ k ++ "\x27: " ++ pyRepr v) :: pyReprObj kvs

def joinComma : List String → String
  | [] => ""
  | [s] => s
  | s :: rest => s ++ ", " ++ joinComma rest

end

/-! ### A model of Python `json.loads`

Fuel-indexed recursive-descent parsing of the JSON fragment the service
actually exchanges: `null`, booleans, integral numbers, escape-free
strings, arrays and objects.  Duplicate object keys are resolved as Python
does (last value wins, first position kept) via `dictSet`.  A parse
failure models `json.JSONDecodeError`. -/

/-- Skip JSON whitespace. -/
def skipWs (cs : List Char) : List Char := cs.dropWhile Char.isWhitespace

/-- Parse a run of decimal digits into a natural number. -/
def parseDigits : List Char → Option (Nat × List Char)
  | cs =>
    let ds := cs.takeWhile Char.isDigit
    if ds = [] then none
    else some (ds.foldl (fun n c => 10 * n + (c.toNat - 48)) 0, cs.dropWhile Char.isDigit)

/-- Parse the body of a JSON string after the opening quote (escape
sequences are outside the modelled fragment and make the parse fail). -/
def parseStrBody : List Char → Option (String × List Char)
  | cs =>
    let body := cs.takeWhile (fun c => c ≠ '"' && c ≠ '\\')
    match cs.dropWhile (fun c => c ≠ '"' && c ≠ '\\') with
    | '"' :: rest => some (⟨body⟩, rest)
    | _ => none

mutual

def parseVal : Nat → List Char → Option (JsonValue × List Char)
  | 0, _ => none
  | fuel + 1, cs =>
    match skipWs cs with
    | [] => none
    | c :: rest =>
      if c = 'n' then
        match rest with
        | 'u' :: 'l' :: 'l' :: rest2 => some (.null, rest2)
        | _ => none
      else if c = 't' then
        match rest with
        | 'r' :: 'u' :: 'e' :: rest2 => some (.bool true, rest2)
        | _ => none
      else if c = 'f' then
        match rest with
        | 'a' :: 'l' :: 's' :: 'e' :: rest2 => some (.bool false, rest2)
        | _ => none
      else if c = '"' then
        match parseStrBody rest with
        | some (s, rest2) => some (.str s, rest2)
        | none => none
      else if c = '-' then
        match parseDigits rest with
        | some (n, rest2) => some (.num (-(n : ℚ)), rest2)
        | none => none
      else if c.isDigit then
        match parseDigits (c :: rest) with
        | some (n, rest2) => some (.num (n : ℚ), rest2)
        | none => none
      else if c = '[' then
        match skipWs rest with
        | ']' :: rest2 => some (.arr [], rest2)
        | _ => parseArrItems fuel rest []
      else if c = '\x7b' then
        match skipWs rest with
        | '\x7d' :: rest2 => some (.obj [], rest2)
        | _ => parseObjItems fuel rest []
      else
        none

def parseArrItems : Nat → List Char → List JsonValue → Option (JsonValue × List Char)
  | 0, _, _ => none
  | fuel + 1, cs, acc =>
    match parseVal fuel cs with
    | none => none
    | some (v, rest) =>
      match skipWs rest with
      | ',' :: rest2 => parseArrItems fuel rest2 (acc ++ [v])
      | ']' :: rest2 => some (.arr (acc ++ [v]), rest2)
      | _ => none

def parseObjItems : Nat → List Char → List (String × JsonValue) → Option (JsonValue × List Char)
  | 0, _, _ => none
  | fuel + 1, cs, acc =>
    match skipWs cs with
    | '"' :: rest =>
      match parseStrBody rest with
      | none => none
      | some (k, rest2) =>
        match skipWs rest2 with
        | ':' :: rest3 =>
          match parseVal fuel rest3 with
          | none => none
          | some (v, rest4) =>
            match skipWs rest4 with
            | ',' :: rest5 => parseObjItems fuel rest5 (dictSet acc k v)
            | '\x7d' :: rest5 => some (.obj (dictSet acc k v), rest5)
            | _ => none
        | _ => none
    | _ => none

end

/-- Python `json.loads(s)`: `none` models a raised `json.JSONDecodeError`. -/
def jsonLoads (s : String) : Option JsonValue :=
  match parseVal (s.data.length + 1) s.data with
  | some (v, rest) => if skipWs rest = [] then some v else none
  | none => none

/-! ### `app/modules/care_plan.py`: data model -/

/-- The `PrescriptionItem` pydantic model. -/
structure PrescriptionItem where
  medication_name : String
  dosage : String
  duration : String
  instructions : Option String
deriving DecidableEq

/-- The `PatientInfo` pydantic model (the float `weight` is modelled as an
exact rational). -/
structure PatientInfo where
  age : Int
  gender : String
  weight : Option ℚ
  medical_conditions : List String
  allergies : List String
deriving DecidableEq

/-- The `DoctorPrescription` pydantic model. -/
structure DoctorPrescription where
  patient_info : PatientInfo
  diagnosis : String
  prescriptions : List PrescriptionItem
  doctor_notes : Option String
  prescription_date : Option String
deriving DecidableEq

/-- The `CarePlanSection` pydantic model: `priority` defaults to "medium". -/
structure CarePlanSection where
  title : String
  content : String
  priority : String
deriving DecidableEq

/-- The `CarePlan` pydantic model: `generated_at` defaults to the current
timestamp, which the embedding passes in explicitly as `now`. -/
structure CarePlan where
  patient_summary : String
  care_goals : List String
  medication_management : List CarePlanSection
  lifestyle_recommendations : List CarePlanSection
  monitoring_schedule : List CarePlanSection
  warning_signs : List String
  follow_up_recommendations : List CarePlanSection
  generated_at : String
deriving DecidableEq

/-- Validation of one care-plan section from a decoded JSON value,
modelling pydantic construction of `CarePlanSection` from a dict:
`title` and `content` are required strings, `priority` defaults to
"medium", extra keys are ignored, anything else fails validation. -/
def sectionOfJson : JsonValue → Except String CarePlanSection
  | .obj kvs =>
    match dictGet kvs "title", dictGet kvs "content" with
    | some (.str t), some (.str c) =>
      match dictGet kvs "priority" with
      | none => .ok ⟨t, c, "medium"⟩
      | some (.str p) => .ok ⟨t, c, p⟩
      | some _ => .error "priority: expected string"
    | _, _ => .error "section: title and content are required strings"
  | _ => .error "section: expected object"

/-- Validation of a `List[str]` field. -/
def strListOfJson : JsonValue → Except String (List String)
  | .arr xs =>
    xs.foldr (fun x acc =>
      match x, acc with
      | .str s, .ok rest => .ok (s :: rest)
      | _, .error e => .error e
      | _, _ => .error "expected list of strings") (.ok [])
  | _ => .error "expected list"

/-- Validation of a `List[CarePlanSection]` field. -/
def sectionListOfJson : JsonValue → Except String (List CarePlanSection)
  | .arr xs =>
    xs.foldr (fun x acc =>
      match sectionOfJson x, acc with
      | .ok s, .ok rest => .ok (s :: rest)
      | _, .error e => .error e
      | .error e, _ => .error e) (.ok [])
  | _ => .error "expected list of sections"

/-- Pydantic validation performed by `CarePlan(**care_plan_data)`: the
payload must be an object carrying all required fields with the right
shapes; `generated_at` defaults to the current timestamp `now`.  An
`.error` models a raised validation/`TypeError` exception. -/
def carePlanOfJson (now : String) : JsonValue → Except String CarePlan
  | .obj kvs => do
    let summary ← match dictGet kvs "patient_summary" with
      | some (.str s) => .ok s
      | _ => .error "patient_summary: required string"
    let goals ← match dictGet kvs "care_goals" with
      | some v => strListOfJson v
      | none => .error "care_goals: required"
    let meds ← match dictGet kvs "medication_management" with
      | some v => sectionListOfJson v
      | none => .error "medication_management: required"
    let life ← match dictGet kvs "lifestyle_recommendations" with
      | some v => sectionListOfJson v
      | none => .error "lifestyle_recommendations: required"
    let monitoring ← match dictGet kvs "monitoring_schedule" with
      | some v => sectionListOfJson v
      | none => .error "monitoring_schedule: required"
    let warnings ← match dictGet kvs "warning_signs" with
      | some v => strListOfJson v
      | none => .error "warning_signs: required"
    let follow ← match dictGet kvs "follow_up_recommendations" with
      | some v => sectionListOfJson v
      | none => .error "follow_up_recommendations: required"
    let generated ← match dictGet kvs "generated_at" with
      | some (.str s) => .ok s
      | none => .ok now
      | some _ => .error "generated_at: expected string"
    .ok ⟨summary, goals, meds, life, monitoring, warnings, follow, generated⟩
  | _ => .error "keyword expansion requires a mapping"

/-- Model of `BedrockCarePlanGenerator._create_fallback_care_plan`: the templated
care plan built from the prescription when the model reply is not JSON.
The raw model content is accepted (as in the source) but unused; `now` is
the `generated_at` default timestamp. -/
def create_fallback_care_plan (prescription : DoctorPrescription)
    (_raw_content : String) (now : String) : CarePlan :=
  { patient_summary := "Patient with " ++ prescription.diagnosis ++
      " requiring medication management and monitoring."
    care_goals := [
      "Manage symptoms effectively",
      "Monitor for medication side effects",
      "Improve overall health outcomes"]
    medication_management := [
      ⟨"Prescribed Medications",
        "Follow prescribed regimen for " ++ toString prescription.prescriptions.length ++
          " medication(s). Take as directed by physician.",
        "high"⟩]
    lifestyle_recommendations := [
      ⟨"General Health",
        "Maintain healthy diet, regular exercise as tolerated, and adequate rest.",
        "medium"⟩]
    monitoring_schedule := [
      ⟨"Regular Check-ups",
        "Schedule follow-up appointments as recommended by healthcare provider.",
        "high"⟩]
    warning_signs := [
      "Worsening of symptoms",
      "Unusual side effects",
      "Signs of allergic reaction"]
    follow_up_recommendations := [
      ⟨"Next Steps",
        "Contact healthcare provider if symptoms persist or worsen.",
        "high"⟩]
    generated_at := now }

/-! ### `generate_care_plan`: model-family dispatch -/

/-- The request body shapes `generate_care_plan` builds, one constructor
per model family (the final constructor is the default Claude-format body,
which carries no `top_p`). -/
inductive BedrockRequestBody where
  | claudeMessages (anthropic_version : String) (max_tokens : Nat)
      (prompt : String) (temperature top_p : ℚ)
  | titanInputText (prompt : String) (maxTokenCount : Nat)
      (temperature topP : ℚ)
  | novaMessages (prompt : String) (max_new_tokens : Nat)
      (temperature top_p : ℚ)
  | claudeMessagesNoTopP (anthropic_version : String) (max_tokens : Nat)
      (prompt : String) (temperature : ℚ)
deriving DecidableEq

/-- The request-body dispatch of `generate_care_plan` (lines 230-287):
substring tests on the model identifier, in source order. -/
def prepare_request_body (model_id prompt : String) : BedrockRequestBody :=
  if pyIn "anthropic.claude" model_id then
    .claudeMessages "bedrock-2023-05-31" 4000 prompt (3/10) (9/10)
  else if pyIn "amazon.titan" model_id then
    .titanInputText prompt 4000 (3/10) (9/10)
  else if pyIn "amazon.nova" model_id then
    .novaMessages prompt 4000 (3/10) (9/10)
  else
    .claudeMessagesNoTopP "bedrock-2023-05-31" 4000 prompt (3/10)

/-- Python `d[k]` on a decoded JSON value: `KeyError` on a missing key,
`TypeError` when the value is not a dict. -/
def jGetE (j : JsonValue) (k : String) : Except String JsonValue :=
  match j with
  | .obj kvs =>
    match dictGet kvs k with
    | some v => .ok v
    | none => .error "KeyError"
  | _ => .error "TypeError"

/-- Python `l[i]` on a decoded JSON value. -/
def jIndexE (j : JsonValue) (i : Nat) : Except String JsonValue :=
  match j with
  | .arr xs =>
    match xs.get? i with
    | some v => .ok v
    | none => .error "IndexError"
  | _ => .error "TypeError"

/-- Claude-family reply extraction: `response_body.content[0].text` (direct
indexing, raising on a missing path). -/
def readClaudeReply (rb : JsonValue) : Except String JsonValue :=
  jGetE rb "content" >>= fun c => jIndexE c 0 >>= fun e => jGetE e "text"

/-- Titan reply extraction: `response_body.results[0].outputText` (direct
indexing). -/
def readTitanReply (rb : JsonValue) : Except String JsonValue :=
  jGetE rb "results" >>= fun c => jIndexE c 0 >>= fun e => jGetE e "outputText"

/-- Nova reply extraction:
`response_body.output.message.content[0].text` (direct indexing). -/
def readNovaReply (rb : JsonValue) : Except String JsonValue :=
  jGetE rb "output" >>= fun o => jGetE o "message" >>= fun m =>
    jGetE m "content" >>= fun c => jIndexE c 0 >>= fun e => jGetE e "text"

/-- Default reply extraction:
reading `content[0].text` with `.get` defaults at the dict steps. -/
def readDefaultReply (rb : JsonValue) : Except String JsonValue :=
  match rb with
  | .obj kvs =>
    match (dictGet kvs "content").getD (.arr [.obj []]) with
    | .arr xs =>
      match xs.get? 0 with
      | some (.obj ekvs) => .ok ((dictGet ekvs "text").getD (.str ""))
      | some _ => .error "AttributeError"
      | none => .error "IndexError"
    | _ => .error "TypeError"
  | _ => .error "AttributeError"

/-- The response-extraction dispatch of `generate_care_plan`
(lines 308-316): the same substring tests, in the same order. -/
def extract_reply (model_id : String) (rb : JsonValue) : Except String JsonValue :=
  if pyIn "anthropic.claude" model_id then readClaudeReply rb
  else if pyIn "amazon.titan" model_id then readTitanReply rb
  else if pyIn "amazon.nova" model_id then readNovaReply rb
  else readDefaultReply rb

/-- Outcome of the completion-parsing stage of `generate_care_plan`. -/
inductive CarePlanOutcome where
  | plan (cp : CarePlan)
  | raisedUnexpected (msg : String)
deriving DecidableEq

/-- Lines 320-332 of `generate_care_plan` together with the enclosing
handler: `json.loads(content.strip())` and `CarePlan(**care_plan_data)`.
Only `json.JSONDecodeError` is caught and answered with the fallback
plan; a validation failure propagates to the outer `except Exception`
handler, which re-raises. -/
def generate_care_plan_parse (prescription : DoctorPrescription)
    (now : String) (content : String) : CarePlanOutcome :=
  match jsonLoads (pyStrip content) with
  | none => .plan (create_fallback_care_plan prescription content now)
  | some j =>
    match carePlanOfJson now j with
    | .ok cp => .plan cp
    | .error e => .raisedUnexpected ("Unexpected error in care plan generation: " ++ e)

/-! ### `app/modules/file_upload.py` and `app/routes/s3_routes.py`:
presigned URLs -/

/-- A raised FastAPI `HTTPException`. -/
structure HTTPError where
  status_code : Nat
  detail : String
deriving DecidableEq

/-- A request the storage adapter hands to
`s3_client.generate_presigned_url`: client method plus `Params` and
`ExpiresIn`. -/
structure PresignRequest where
  client_method : String
  bucket : String
  key : String
  expires_in : Int
deriving DecidableEq

/-- The boto3 presigned-URL call, modelled as an oracle: a `ClientError`
or the generated URL. -/
def PresignOracle : Type := PresignRequest → Except String String

/-- Model of `S3FileUploader.get_file_url` (lines 173-197): request a presigned
`get_object` URL valid for `expiration` seconds (default 3600) and return
it; a `ClientError` becomes an HTTP 500. -/
def get_file_url (presign : PresignOracle) (bucket_name file_key : String)
    (expiration : Int := 3600) : Except HTTPError String :=
  match presign ⟨"get_object", bucket_name, file_key, expiration⟩ with
  | .ok url => .ok url
  | .error _ => .error ⟨500, "Failed to generate file access URL"⟩

/-- The response body of the `/upload/file/...` GET route. -/
structure FileUrlResponse where
  success : Bool
  presigned_url : String
  expiration_seconds : Int
deriving DecidableEq

/-- Route handler `get_file_url` in `s3_routes.py` (lines 124-164):
`expiration` is an optional query parameter defaulting to 3600 seconds
(`none` models an omitted parameter); `HTTPException`s from the adapter
are re-raised unchanged. -/
def route_get_file_url (presign : PresignOracle) (bucket_name file_key : String)
    (expiration : Option Int) : Except HTTPError FileUrlResponse :=
  let exp := match expiration with
    | some e => e
    | none => 3600
  match get_file_url presign bucket_name file_key exp with
  | .ok url => .ok ⟨true, url, exp⟩
  | .error e => .error e

/-! ### `app/modules/text_extraction.py` -/

/-- How `AWSTextExtractor._extract_text` converts each file type. -/
inductive ExtractionWay where
  | textractWithPyPDF2Fallback
  | pythonDocx
  | jsonParsing
  | plainTextReader
deriving DecidableEq

/-- The file-type dispatch of `AWSTextExtractor._extract_text`
(lines 133-146): the incoming type is lower-cased, four types are
supported, and anything else raises `ValueError`.  Only the PDF branch
goes through AWS Textract (`_extract_from_pdf`, lines 148-179, falling
back to PyPDF2 on any error); the other three branches are local parsers. -/
def extract_text_way (file_type : String) : Except String ExtractionWay :=
  let ft := pyLower file_type
  if ft = "pdf" then .ok .textractWithPyPDF2Fallback
  else if ft = "docx" ∨ ft = "doc" then .ok .pythonDocx
  else if ft = "json" then .ok .jsonParsing
  else if ft = "txt" then .ok .plainTextReader
  else .error ("Unsupported file type: " ++ ft)

/-- The text `AWSTextExtractor._perform_ner` (lines 271-283) submits to
Comprehend Medical: the input is truncated to its first 20000 characters
exactly when its UTF-8 encoding exceeds 20000 bytes. -/
def perform_ner_input (text : String) : String :=
  if utf8Len text > 20000 then pySlice text 20000 else text

/-! ### `app/routes/text_extraction_routes.py` -/

/-- Model of `get_file_type` (lines 35-63): extension checks first, then
content-type substring checks, defaulting to `txt`. -/
def route_get_file_type (filename content_type : String) : String :=
  let fn := pyLower filename
  if pyEndswith ".pdf" fn then "pdf"
  else if pyEndswith ".docx" fn ∨ pyEndswith ".doc" fn then "docx"
  else if pyEndswith ".json" fn then "json"
  else if pyEndswith ".txt" fn then "txt"
  else if pyIn "pdf" content_type then "pdf"
  else if pyIn "word" content_type ∨ pyIn "document" content_type then "docx"
  else if pyIn "json" content_type then "json"
  else if pyIn "text" content_type then "txt"
  else "txt"

/-- Model of handler `extract_text_and_ner` (`POST /extract/text-and-ner`,
lines 66-140): reject a missing filename with 400 and content over
10*1024*1024 bytes with 413, before handing the bytes to the extractor
(modelled by the `extractor` oracle over the byte count and file type). -/
def extract_text_and_ner {α : Type} (extractor : Nat → String → Bool → α)
    (filename content_type : String) (content_size : Nat)
    (include_ner : Bool) : Except HTTPError α :=
  if filename = "" then .error ⟨400, "No file provided"⟩
  else
    let file_type := route_get_file_type filename content_type
    if content_size > 10 * 1024 * 1024 then
      .error ⟨413, "File size too large. Maximum size is 10MB."⟩
    else
      .ok (extractor content_size file_type include_ner)

/-- Model of handler `extract_text_only` (`POST /extract/text-only`,
lines 143-209): the same guards, with NER disabled. -/
def extract_text_only {α : Type} (extractor : Nat → String → Bool → α)
    (filename content_type : String) (content_size : Nat) :
    Except HTTPError α :=
  if filename = "" then .error ⟨400, "No file provided"⟩
  else
    let file_type := route_get_file_type filename content_type
    if content_size > 10 * 1024 * 1024 then
      .error ⟨413, "File size too large. Maximum size is 10MB."⟩
    else
      .ok (extractor content_size file_type false)

/-- Model of handler `analyze_ner_only` (`POST /extract/ner-only`, lines 212-265):
empty-or-blank text is rejected with 400, text over 20000 characters with
413; otherwise `_perform_ner` runs on the text (modelled by the `ner`
oracle). -/
def analyze_ner_only {α : Type} (ner : String → α) (text : String) :
    Except HTTPError α :=
  if text = "" ∨ pyStrip text = "" then .error ⟨400, "No text provided"⟩
  else if pyLen text > 20000 then
    .error ⟨413, "Text too long. Maximum length is 20,000 characters."⟩
  else
    .ok (ner text)

/-! ### `extract_medical_data` (`s3_routes.py`, lines 167-607)

The workflow state: `patient_info` and `vital_signs` are Python dicts of
strings, `medications` a list of heterogeneous dicts (modelled as
association lists over decoded JSON values), `medical_conditions` a list
of strings. -/

/-- One medication record (a Python dict with varying keys). -/
abbrev MedDict : Type := List (String × JsonValue)

/-- The mutable collections of the structured-JSON stage. -/
structure MedState where
  patient_info : List (String × String)
  medications : List MedDict
  medical_conditions : List String

/-- Whether the value is a dict and non-empty (the precise condition under
which the inner `vital_signs[...] = ...` loop body runs at least once). -/
def jsonIsNonemptyObj : JsonValue → Bool
  | .obj kvs => !kvs.isEmpty
  | _ => false

/-- One JSON medication entry (lines 270-278):
`med.get("medication_name", med.get("name", "Unknown"))` etc.; non-dict
entries are skipped. -/
def medOfJson : JsonValue → Option MedDict
  | .obj kvs =>
    let nameV := (dictGet kvs "medication_name").getD
      ((dictGet kvs "name").getD (.str "Unknown"))
    some [("name", nameV), ("medication_name", nameV),
      ("dosage", (dictGet kvs "dosage").getD (.str "N/A")),
      ("duration", (dictGet kvs "duration").getD (.str "As prescribed"))]
  | _ => none

/-- One top-level key of the structured-JSON loop (lines 250-285).  The
four membership checks run in source order; the `vital` check references
the not-yet-assigned local `vital_signs` (line 266), so a non-empty vital
dict raises `UnboundLocalError`, modelled by the `.error` escape carrying
the state mutated so far.  The surrounding bare `except` (line 286) keeps
that state. -/
def processJsonKey (st : MedState) (key : String) (v : JsonValue) :
    Except MedState MedState :=
  let kl := pyLower key
  let st :=
    if pyIn "patient" kl then
      match v with
      | .obj kvs =>
        let pi := st.patient_info
        let pi := match dictGet kvs "age" with
          | some a => dictSet pi "age" (pyStr a) | none => pi
        let pi := match dictGet kvs "gender" with
          | some a => dictSet pi "gender" (pyStr a) | none => pi
        let pi := match dictGet kvs "weight" with
          | some a => dictSet pi "weight" (pyStr a) | none => pi
        let pi := match dictGet kvs "height" with
          | some a => dictSet pi "height" (pyStr a) | none => pi
        let pi := match dictGet kvs "bmi" with
          | some a => dictSet pi "bmi" (pyStr a) | none => pi
        { st with patient_info := pi }
      | _ => st
    else st
  if pyIn "vital" kl && jsonIsNonemptyObj v then
    .error st
  else
    let st :=
      if pyIn "prescription" kl || pyIn "medication" kl then
        match v with
        | .arr meds => { st with medications := st.medications ++ meds.filterMap medOfJson }
        | _ => st
      else st
    let st :=
      if pyIn "condition" kl || pyIn "diagnosis" kl then
        match v with
        | .arr conds =>
            { st with medical_conditions := st.medical_conditions ++ conds.map pyStr }
        | .str s => { st with medical_conditions := st.medical_conditions ++ [s] }
        | _ => st
      else st
    .ok st

/-- The whole `for key, value in json_data.items()` loop inside its
`try/except: pass`: an `UnboundLocalError` abandons the remaining keys but
keeps all mutations already performed. -/
def processAll (st : MedState) : List (String × JsonValue) → MedState
  | [] => st
  | (k, v) :: rest =>
    match processJsonKey st k v with
    | .ok st2 => processAll st2 rest
    | .error st2 => st2

/-- A Comprehend Medical entity as consumed by the handler (all fields
read defensively with `.get`; attributes are read as `Type`/`Text`
pairs). -/
structure MedicalEntity where
  category : String
  etype : String
  text : String
  score : ℚ
  attributes : List (String × String)

/-- A PHI entity as consumed by the handler. -/
structure PhiEntity where
  category : String
  etype : String
  text : String

/-- One medical entity of the NER stage (lines 293-322). -/
def nerEntityStep (st : MedState) (e : MedicalEntity) : MedState :=
  let category := pyUpper e.category
  let entity_type := pyUpper e.etype
  if category = "MEDICAL_CONDITION" then
    { st with medical_conditions := st.medical_conditions ++ [e.text] }
  else if category = "MEDICATION" then
    let df := e.attributes.foldl (fun (df : String × String) a =>
      let aty := pyUpper a.1
      if aty = "DOSAGE" ∨ aty = "STRENGTH" then (a.2, df.2)
      else if aty = "FREQUENCY" then (df.1, a.2)
      else df) ("N/A", "N/A")
    { st with medications := st.medications ++
        [[("name", .str e.text), ("medication_name", .str e.text),
          ("dosage", .str (pyStrip (df.1 ++ " " ++ df.2))),
          ("duration", .str "As prescribed"),
          ("type", .str entity_type), ("confidence", .num e.score)]] }
  else st

/-- Model of the digit-run search the PHI age branch performs (a regex
search for one or more digits): the first maximal run of digits. -/
def firstDigitRun (s : String) : Option String :=
  let rest := s.data.dropWhile (fun c => !c.isDigit)
  if rest = [] then none else some ⟨rest.takeWhile Char.isDigit⟩

/-- One PHI entity of the demographics stage (lines 328-342): `name` and
`age` are set only when not already present. -/
def phiEntityStep (pi : List (String × String)) (e : PhiEntity) :
    List (String × String) :=
  let entity_type := pyUpper e.etype
  if entity_type = "NAME" then
    if dictGet pi "name" = none then dictSet pi "name" e.text else pi
  else if entity_type = "AGE" then
    if dictGet pi "age" = none then
      match firstDigitRun e.text with
      | some digits => dictSet pi "age" digits
      | none => pi
    else pi
  else pi

/-- Python `s.title()` for the single-token values reaching it here. -/
def pyTitle (s : String) : String :=
  match s.data with
  | [] => ""
  | c :: rest => ⟨c.toUpper :: rest.map Char.toLower⟩

/-- Python `text.split('\n')`. -/
def pySplitNl (s : String) : List String :=
  (s.data.splitOn '\n').map (fun l => ⟨l⟩)

/-- The `re.search` loops inside the line-based demographic branches
(lines 366-423), abstracted as oracles returning the captured groups of
the first matching pattern. -/
structure LineMatchers where
  ageLine : String → Option String
  genderLine : String → Option String
  weightLine : String → Option (String × String)

/-- One line of the line-based parsing loop (lines 352-471): a single
`if/elif` chain; each demographic branch assigns its `patient_info` entry
unconditionally. -/
def lineStep (m : LineMatchers) (pv : List (String × String) × List (String × String))
    (rawLine : String) : List (String × String) × List (String × String) :=
  let (pi, vs) := pv
  let line := pyStrip rawLine
  let ll := pyLower line
  if pyIn "patient:" ll || pyIn "name:" ll then
    match pySplitOnceRest ':' line with
    | some rest =>
      let name := pyStrip rest
      if name ≠ "" ∧ ¬ name.data.any Char.isDigit then (dictSet pi "name" name, vs)
      else (pi, vs)
    | none => (pi, vs)
  else if pyIn "age:" ll || pyIn "years old" ll || pyIn "y/o" ll then
    match m.ageLine ll with
    | some a => (dictSet pi "age" a, vs)
    | none => (pi, vs)
  else if ["gender:", "sex:", "male", "female", "m/f"].any (fun k => pyIn k ll) then
    match m.genderLine ll with
    | some g0 =>
      let g := pyLower g0
      if g = "m" ∨ g = "male" then (dictSet pi "gender" "Male", vs)
      else if g = "f" ∨ g = "female" then (dictSet pi "gender" "Female", vs)
      else (dictSet pi "gender" (pyTitle g), vs)
    | none => (pi, vs)
  else if pyIn "weight:" ll || pyIn "wt:" ll || pyIn "kg" ll || pyIn "lbs" ll then
    match m.weightLine ll with
    | some (v, u) =>
      (dictSet pi "weight" (v ++ " " ++ u), dictSet vs "weight" (v ++ " " ++ u))
    | none => (pi, vs)
  else if pyIn "height:" ll then
    match pySplitOnceRest ':' line with
    | some rest => (dictSet pi "height" (pyStrip rest), dictSet vs "height" (pyStrip rest))
    | none => (pi, vs)
  else if pyIn "bmi:" ll then
    match pySplitOnceRest ':' line with
    | some rest => (dictSet pi "bmi" (pyStrip rest), dictSet vs "bmi" (pyStrip rest))
    | none => (pi, vs)
  else if pyIn "blood pressure:" ll || pyIn "bp:" ll then
    match pySplitOnceRest ':' line with
    | some rest => (pi, dictSet vs "blood_pressure" (pyStrip rest))
    | none => (pi, vs)
  else if pyIn "heart rate:" ll || pyIn "hr:" ll || pyIn "pulse:" ll then
    match pySplitOnceRest ':' line with
    | some rest => (pi, dictSet vs "heart_rate" (pyStrip rest))
    | none => (pi, vs)
  else if pyIn "temperature:" ll || pyIn "temp:" ll then
    match pySplitOnceRest ':' line with
    | some rest => (pi, dictSet vs "temperature" (pyStrip rest))
    | none => (pi, vs)
  else if pyIn "respiratory rate:" ll || pyIn "rr:" ll then
    match pySplitOnceRest ':' line with
    | some rest => (pi, dictSet vs "respiratory_rate" (pyStrip rest))
    | none => (pi, vs)
  else if pyIn "oxygen saturation:" ll || pyIn "o2 sat:" ll || pyIn "spo2:" ll then
    match pySplitOnceRest ':' line with
    | some rest => (pi, dictSet vs "oxygen_saturation" (pyStrip rest))
    | none => (pi, vs)
  else (pi, vs)

/-- The `re.search` pattern loops of the full-text fallback stage
(lines 477-530), abstracted as oracles.  `ageFull` and `weightFull`
return, per pattern in source order, the successfully matched values (the
in-range filtering stays in the embedding, as in the source). -/
structure FullTextMatchers where
  ageFull : String → List Nat
  genderFull : String → Option String
  weightFull : String → List (String × String × ℚ)

/-- Lines 477-490: the age fallback, guarded by
`if "age" not in patient_info`; a match is kept only in the open range
(0, 150), otherwise the next pattern is tried. -/
def fullTextAgeStage (m : FullTextMatchers) (pi : List (String × String))
    (full_text_lower : String) : List (String × String) :=
  if dictGet pi "age" = none then
    match (m.ageFull full_text_lower).find? (fun n => decide (0 < n ∧ n < 150)) with
    | some n => dictSet pi "age" (toString n)
    | none => pi
  else pi

/-- Lines 492-509: the gender fallback, guarded by
`if "gender" not in patient_info`. -/
def fullTextGenderStage (m : FullTextMatchers) (pi : List (String × String))
    (full_text_lower : String) : List (String × String) :=
  if dictGet pi "gender" = none then
    match m.genderFull full_text_lower with
    | some g0 =>
      let g := pyLower g0
      if g = "m" ∨ g = "male" then dictSet pi "gender" "Male"
      else if g = "f" ∨ g = "female" then dictSet pi "gender" "Female"
      else pi
    | none => pi
  else pi

/-- Lines 511-530: the weight fallback, guarded by
`if "weight" not in patient_info`; a match is kept only in the open range
(20, 300). -/
def fullTextWeightStage (m : FullTextMatchers) (pi vs : List (String × String))
    (full_text_lower : String) :
    List (String × String) × List (String × String) :=
  if dictGet pi "weight" = none then
    match (m.weightFull full_text_lower).find? (fun t => decide (20 < t.2.2 ∧ t.2.2 < 300)) with
    | some (v, u, _) =>
      (dictSet pi "weight" (v ++ " " ++ u), dictSet vs "weight" (v ++ " " ++ u))
    | none => (pi, vs)
  else (pi, vs)

/-- The full-text fallback stage (lines 473-530): every demographic field
is touched only under an `if "<field>" not in patient_info` guard. -/
def fullTextStep (m : FullTextMatchers)
    (pi vs : List (String × String)) (full_text_lower : String) :
    List (String × String) × List (String × String) :=
  fullTextWeightStage m
    (fullTextGenderStage m (fullTextAgeStage m pi full_text_lower) full_text_lower)
    vs full_text_lower

/-- The keyword-based medication extraction loop (lines 533-554): an
`IndexError` on `parts[1]` is swallowed by the inner `try/except`. -/
def medLineKeywordStep (meds : List MedDict) (rawLine : String) : List MedDict :=
  let line := pyStrip rawLine
  let ll := pyLower line
  if (["furosemide", "metoprolol", "lisinopril", "metformin"].any
        (fun k => pyIn k ll)) && pyIn "mg" ll then
    let parts := pySplitWs line
    match parts with
    | [] => meds
    | p0 :: restParts =>
      let nameOpt := if pyEndswith "." p0 then restParts.head? else some p0
      match nameOpt with
      | none => meds
      | some name =>
        let dosage_part := parts.filter (fun p => pyIn "mg" (pyLower p))
        let frequency_part := parts.filter
          (fun p => decide (pyLower p = "daily" ∨ pyLower p = "twice" ∨ pyLower p = "once"))
        let dosage := (dosage_part.head?).getD "N/A"
        let frequency := if frequency_part = [] then "As prescribed"
          else String.intercalate " " frequency_part
        meds ++ [[("name", .str name), ("medication_name", .str name),
          ("dosage", .str (dosage ++ " " ++ frequency)),
          ("duration", .str "As prescribed")]]
  else meds

/-- One line of the diagnosis-section loop (lines 557-573), threading the
`diagnosis_section` flag. -/
def diagnosisStep (acc : List String × Bool) (rawLine : String) : List String × Bool :=
  let line := pyStrip rawLine
  let (conds, flag) := acc
  if pyIn "DIAGNOSIS:" (pyUpper line) then
    match pySplitOnceRest ':' line with
    | some rest =>
      let dt := pyStrip rest
      if dt ≠ "" ∧ ¬ (pyIsDigit dt = true) then (conds ++ [dt], true) else (conds, true)
    | none => (conds, true)
  else if flag && ["1.", "2.", "3.", "4.", "5."].any (fun p => pyStartswith p line) then
    match pySplitOnceRest '.' line with
    | some rest =>
      let c := pyStrip rest
      (if c ≠ "" then conds ++ [c] else conds, flag)
    | none => (conds, flag)
  else if flag && (pyStartswith "MEDICATIONS" line || pyStartswith "VITAL" line
      || pyStartswith "FOLLOW" line) then
    (conds, false)
  else (conds, flag)

/-- The `ner_analysis` sub-object `extract_and_analyze` attaches to its
result when NER is requested and text was extracted. -/
structure NerAnalysis where
  medical_entities : List MedicalEntity
  phi_entities : List PhiEntity

/-- The `extract_and_analyze` result consumed by the handler. -/
structure ExtractionResult where
  extracted_text : String
  ner_analysis : Option NerAnalysis

/-- The assembled `medical_data` of the response (the fields the claims
concern; `lab_results` is a constant empty dict and the raw echoes repeat
`extracted_text`). -/
structure MedicalData where
  patient_info : List (String × String)
  medications : List MedDict
  medical_conditions : List String
  diagnosis : String
  vital_signs : List (String × String)

/-- The data-shaping core of the `extract_medical_data` handler
(lines 234-586): structured-JSON stage (for `.json` files), NER stage,
PHI stage, line-based parsing, full-text fallback parsing, keyword
medication extraction and diagnosis-section extraction, in source
order. -/
def extract_medical_data_core (lm : LineMatchers) (fm : FullTextMatchers)
    (file_extension : String) (result : ExtractionResult) : MedicalData :=
  let extracted_text := result.extracted_text
  let st0 : MedState := ⟨[], [], []⟩
  let st1 :=
    if file_extension = "json" then
      match jsonLoads extracted_text with
      | some (.obj kvs) => processAll st0 kvs
      | _ => st0
    else st0
  let st2 := match result.ner_analysis with
    | some na => na.medical_entities.foldl nerEntityStep st1
    | none => st1
  let pi2 := match result.ner_analysis with
    | some na => na.phi_entities.foldl phiEntityStep st2.patient_info
    | none => st2.patient_info
  let lines := pySplitNl extracted_text
  let pv3 := lines.foldl (lineStep lm) (pi2, [])
  let pv4 := fullTextStep fm pv3.1 pv3.2 (pyLower extracted_text)
  let meds5 := lines.foldl medLineKeywordStep st2.medications
  let conds6 := (lines.foldl diagnosisStep (st2.medical_conditions, false)).1
  { patient_info := pv4.1
    medications := meds5
    medical_conditions := conds6
    diagnosis := if pyLen extracted_text > 500 then pySlice extracted_text 500 ++ "..."
      else extracted_text
    vital_signs := pv4.2 }

/-- The handler response (lines 590-594). -/
structure ExtractResponse where
  success : Bool
  message : String
  data : MedicalData

/-- The successful `extract_medical_data` response. -/
def extract_medical_data_response (lm : LineMatchers) (fm : FullTextMatchers)
    (file_extension : String) (result : ExtractionResult) : ExtractResponse :=
  { success := true
    message := "Medical data extracted successfully with enhanced demographics parsing"
    data := extract_medical_data_core lm fm file_extension result }

/-! ### Request independence (`app/config.py` and the route modules)

The only module-level values a handler can reach are the `settings`
object (never assigned to) and the per-request adapter instances built by
the `Depends` factories.  The server is modelled with an explicit state
that is threaded through request processing; each handler is the direct
translation of its route body, reading the state and returning it. -/

/-- The `Settings` model of `app/config.py`. -/
structure Settings where
  aws_access_key_id : Option String
  aws_secret_access_key : Option String
  aws_region : String
  aws_role_arn : Option String
  s3_bucket_name : String
  bedrock_model_id : String
  claude_35_sonnet_model_id : String
  claude_37_sonnet_model_id : String
  claude_3_sonnet_model_id : String
  nova_micro_model_id : String
  bedrock_region : String

/-- Model of `Settings.effective_bedrock_region`: Python `bedrock_region or
aws_region` (an empty string is falsy). -/
def effective_bedrock_region (s : Settings) : String :=
  if s.bedrock_region = "" then s.aws_region else s.bedrock_region

/-- The construction arguments of `S3FileUploader` as supplied by
`get_s3_uploader` (`s3_routes.py`, lines 21-29). -/
structure S3UploaderCfg where
  aws_access_key_id : Option String
  aws_secret_access_key : Option String
  region_name : String
deriving DecidableEq

/-- Model of `get_s3_uploader`: a fresh uploader per request, from settings only. -/
def get_s3_uploader (s : Settings) : S3UploaderCfg :=
  ⟨s.aws_access_key_id, s.aws_secret_access_key, s.aws_region⟩

/-- The construction arguments of `AWSTextExtractor` as supplied by
`get_text_extractor` (`text_extraction_routes.py`, lines 23-32). -/
structure TextExtractorCfg where
  aws_access_key_id : Option String
  aws_secret_access_key : Option String
  region_name : String
  aws_role_arn : Option String
deriving DecidableEq

/-- Model of `get_text_extractor`: a fresh extractor per request. -/
def get_text_extractor (s : Settings) : TextExtractorCfg :=
  ⟨s.aws_access_key_id, s.aws_secret_access_key, s.aws_region, s.aws_role_arn⟩

/-- The construction arguments of `BedrockCarePlanGenerator` as supplied
by `get_care_plan_generator` (`care_plan_routes.py`, lines 28-37). -/
structure CarePlanGeneratorCfg where
  aws_access_key_id : Option String
  aws_secret_access_key : Option String
  region_name : String
  aws_role_arn : Option String
deriving DecidableEq

/-- Model of `get_care_plan_generator`: a fresh generator per request, using the
effective Bedrock region. -/
def get_care_plan_generator (s : Settings) : CarePlanGeneratorCfg :=
  ⟨s.aws_access_key_id, s.aws_secret_access_key, effective_bedrock_region s, s.aws_role_arn⟩

/-- An inbound request to one of the modelled endpoints. -/
inductive Request where
  | getFileUrl (bucket key : String) (expiration : Option Int)
  | nerOnly (text : String)
  | textAndNer (filename content_type : String) (content_size : Nat) (include_ner : Bool)
  | generate (prescription : DoctorPrescription) (model_id : Option String)

/-- The external world the handlers talk to, fixed across requests:
the S3 presigner, Comprehend Medical, Textract and Bedrock replies and
the wall clock.  `bedrock` maps a model id to the completion text. -/
structure Env (α β : Type) where
  presign : PresignOracle
  ner : String → α
  extractor : Nat → String → Bool → β
  bedrock : String → String
  now : String

/-- A response from one of the modelled endpoints. -/
inductive Response (α β : Type) where
  | fileUrl (r : Except HTTPError FileUrlResponse)
  | nerPayload (r : Except HTTPError α)
  | extractPayload (r : Except HTTPError β)
  | carePlanReply (model_used : String) (r : CarePlanOutcome)

/-- Processing one request: each arm is the corresponding route body; the
module state is read (for `settings`) and returned unchanged, as no route
assigns to any module-level name. -/
def handle (env : Env α β) (st : Settings) : Request → Response α β × Settings
  | .getFileUrl b k e => (.fileUrl (route_get_file_url env.presign b k e), st)
  | .nerOnly t => (.nerPayload (analyze_ner_only env.ner t), st)
  | .textAndNer fn ct sz inc =>
    (.extractPayload (extract_text_and_ner env.extractor fn ct sz inc), st)
  | .generate p mid =>
    let effective := match mid with
      | some m => if m = "" then st.bedrock_model_id else m
      | none => st.bedrock_model_id
    (.carePlanReply effective
      (generate_care_plan_parse p env.now (env.bedrock effective)), st)

/-! ### Serialization of a care plan (`care_plan.dict()` in the routes) -/

/-- Serialization of one section: pydantic emits exactly the three
declared fields. -/
def sectionDict (s : CarePlanSection) : List (String × JsonValue) :=
  [("title", .str s.title), ("content", .str s.content), ("priority", .str s.priority)]

/-- Serialization of a care plan: pydantic emits exactly the eight
declared fields, in declaration order. -/
def carePlanDict (cp : CarePlan) : List (String × JsonValue) :=
  [("patient_summary", .str cp.patient_summary),
   ("care_goals", .arr (cp.care_goals.map .str)),
   ("medication_management", .arr (cp.medication_management.map (fun s => .obj (sectionDict s)))),
   ("lifestyle_recommendations", .arr (cp.lifestyle_recommendations.map (fun s => .obj (sectionDict s)))),
   ("monitoring_schedule", .arr (cp.monitoring_schedule.map (fun s => .obj (sectionDict s)))),
   ("warning_signs", .arr (cp.warning_signs.map .str)),
   ("follow_up_recommendations", .arr (cp.follow_up_recommendations.map (fun s => .obj (sectionDict s)))),
   ("generated_at", .str cp.generated_at)]

/-- All categorized sections of a care plan. -/
def allSections (cp : CarePlan) : List CarePlanSection :=
  cp.medication_management ++ cp.lifestyle_recommendations ++
    cp.monitoring_schedule ++ cp.follow_up_recommendations

/-! ### Concrete fixtures used by witnesses and counterexamples -/

/-- The sample prescription of `POST /care-plan/sample`
(`care_plan_routes.py`, lines 104-134), with one medication kept. -/
def samplePrescription : DoctorPrescription :=
  { patient_info :=
      { age := 45, gender := "Female", weight := some (137 / 2)
        medical_conditions := ["Hypertension", "Type 2 Diabetes"]
        allergies := ["Penicillin"] }
    diagnosis := "Acute bronchitis with underlying comorbidities"
    prescriptions := [
      { medication_name := "Amoxicillin-Clavulanate"
        dosage := "875mg/125mg twice daily", duration := "7 days"
        instructions := some "Take with food to reduce stomach upset" }]
    doctor_notes := some "Patient has well-controlled diabetes and hypertension."
    prescription_date := none }

/-- Regex oracles for inputs on which none of the line patterns match. -/
def noLineMatchers : LineMatchers := ⟨fun _ => none, fun _ => none, fun _ => none⟩

/-- Regex oracles for inputs on which none of the full-text patterns
match. -/
def noFullTextMatchers : FullTextMatchers := ⟨fun _ => [], fun _ => none, fun _ => []⟩

/-- A presigner that always succeeds, echoing its request. -/
def presignOk : PresignOracle :=
  fun r => .ok ("https://" ++ r.bucket ++ ".s3.amazonaws.com/" ++ r.key)

/-- A presigner that always raises `ClientError`. -/
def presignErr : PresignOracle := fun _ => .error "AccessDenied"

/-- 20001 copies of a two-byte character: 40002 UTF-8 bytes. -/
def wideText : String := ⟨List.replicate 20001 'é'⟩

/-! ### Helper lemmas -/

/-- Lookup after the in-place-update branch of `dictSet`. -/
lemma dictGet_map_set_ne (l : List (String × α)) (k k2 : String) (v2 : α)
    (h : k ≠ k2) :
    dictGet (l.map (fun p => if p.1 = k2 then (k2, v2) else p)) k = dictGet l k := by
  induction l with
  | nil => rfl
  | cons p rest ih =>
    obtain ⟨a, b⟩ := p
    simp only [List.map_cons]
    by_cases ha : a = k2
    · subst ha
      rw [if_pos (show (a, b).1 = a from rfl)]
      show (if k = a then some v2
          else dictGet (rest.map (fun p => if p.1 = a then (a, v2) else p)) k) =
        (if k = a then some b else dictGet rest k)
      rw [if_neg h, if_neg h]
      exact ih
    · rw [if_neg (show ¬ (a, b).1 = k2 from ha)]
      show (if k = a then some b
          else dictGet (rest.map (fun p => if p.1 = k2 then (k2, v2) else p)) k) =
        (if k = a then some b else dictGet rest k)
      by_cases hk : k = a
      · rw [if_pos hk, if_pos hk]
      · rw [if_neg hk, if_neg hk]
        exact ih

/-- Lookup after the append branch of `dictSet`. -/
lemma dictGet_append_single_ne (l : List (String × α)) (k k2 : String) (v2 : α)
    (h : k ≠ k2) : dictGet (l ++ [(k2, v2)]) k = dictGet l k := by
  induction l with
  | nil =>
    show (if k = k2 then some v2 else none) = none
    rw [if_neg h]
  | cons p rest ih =>
    obtain ⟨a, b⟩ := p
    show (if k = a then some b else dictGet (rest ++ [(k2, v2)]) k) =
      (if k = a then some b else dictGet rest k)
    by_cases hk : k = a
    · rw [if_pos hk, if_pos hk]
    · rw [if_neg hk, if_neg hk]
      exact ih

/-- Setting one key does not change the lookup of another key. -/
lemma dictGet_dictSet_ne (l : List (String × α)) (k k2 : String) (v2 : α)
    (h : k ≠ k2) : dictGet (dictSet l k2 v2) k = dictGet l k := by
  unfold dictSet
  split
  · exact dictGet_map_set_ne l k k2 v2 h
  · exact dictGet_append_single_ne l k k2 v2 h

/-- A key that is present survives a `dictSet` whose guard saw it absent. -/
lemma dictGet_preserved_of_absent_set (l : List (String × α)) (k k2 : String)
    (v v2 : α) (h : dictGet l k = some v) (habs : dictGet l k2 = none) :
    dictGet (dictSet l k2 v2) k = some v := by
  have hne : k ≠ k2 := by
    intro he
    rw [he, habs] at h
    exact Option.noConfusion h
  rw [dictGet_dictSet_ne l k k2 v2 hne, h]

/-- The PHI demographics stage never overwrites a present field. -/
lemma phiEntityStep_preserves (pi : List (String × String)) (e : PhiEntity)
    (k v : String) (h : dictGet pi k = some v) :
    dictGet (phiEntityStep pi e) k = some v := by
  unfold phiEntityStep
  dsimp only
  by_cases h1 : pyUpper e.etype = "NAME"
  · rw [if_pos h1]
    by_cases h2 : dictGet pi "name" = none
    · rw [if_pos h2]
      exact dictGet_preserved_of_absent_set pi k "name" v e.text h h2
    · rw [if_neg h2]
      exact h
  · rw [if_neg h1]
    by_cases h3 : pyUpper e.etype = "AGE"
    · rw [if_pos h3]
      by_cases h2 : dictGet pi "age" = none
      · rw [if_pos h2]
        cases hfd : firstDigitRun e.text with
        | some d => exact dictGet_preserved_of_absent_set pi k "age" v d h h2
        | none => exact h
      · rw [if_neg h2]
        exact h
    · rw [if_neg h3]
      exact h

/-- The PHI demographics fold never overwrites a present field. -/
lemma phiFold_preserves (pi : List (String × String)) (es : List PhiEntity)
    (k v : String) (h : dictGet pi k = some v) :
    dictGet (es.foldl phiEntityStep pi) k = some v := by
  induction es generalizing pi with
  | nil => exact h
  | cons e rest ih => exact ih _ (phiEntityStep_preserves pi e k v h)

/-- The age fallback never overwrites a present field. -/
lemma fullTextAgeStage_preserves (m : FullTextMatchers)
    (pi : List (String × String)) (ftl k v : String)
    (h : dictGet pi k = some v) :
    dictGet (fullTextAgeStage m pi ftl) k = some v := by
  unfold fullTextAgeStage
  by_cases hg : dictGet pi "age" = none
  · rw [if_pos hg]
    cases (m.ageFull ftl).find? (fun n => decide (0 < n ∧ n < 150)) with
    | some n => exact dictGet_preserved_of_absent_set pi k "age" v _ h hg
    | none => exact h
  · rw [if_neg hg]
    exact h

/-- The gender fallback never overwrites a present field. -/
lemma fullTextGenderStage_preserves (m : FullTextMatchers)
    (pi : List (String × String)) (ftl k v : String)
    (h : dictGet pi k = some v) :
    dictGet (fullTextGenderStage m pi ftl) k = some v := by
  unfold fullTextGenderStage
  by_cases hg : dictGet pi "gender" = none
  · rw [if_pos hg]
    cases m.genderFull ftl with
    | some g0 =>
      dsimp only
      by_cases h1 : pyLower g0 = "m" ∨ pyLower g0 = "male"
      · rw [if_pos h1]
        exact dictGet_preserved_of_absent_set pi k "gender" v _ h hg
      · rw [if_neg h1]
        by_cases h2 : pyLower g0 = "f" ∨ pyLower g0 = "female"
        · rw [if_pos h2]
          exact dictGet_preserved_of_absent_set pi k "gender" v _ h hg
        · rw [if_neg h2]
          exact h
    | none => exact h
  · rw [if_neg hg]
    exact h

/-- The weight fallback never overwrites a present field. -/
lemma fullTextWeightStage_preserves (m : FullTextMatchers)
    (pi vs : List (String × String)) (ftl k v : String)
    (h : dictGet pi k = some v) :
    dictGet (fullTextWeightStage m pi vs ftl).1 k = some v := by
  unfold fullTextWeightStage
  by_cases hg : dictGet pi "weight" = none
  · rw [if_pos hg]
    cases (m.weightFull ftl).find? (fun t => decide (20 < t.2.2 ∧ t.2.2 < 300)) with
    | some t =>
      obtain ⟨w, u, q⟩ := t
      exact dictGet_preserved_of_absent_set pi k "weight" v _ h hg
    | none => exact h
  · rw [if_neg hg]
    exact h

/-! ## Claims -/

/-- C1: for every backend model identifier, both the request-body shape
and the response-extraction path of `generate_care_plan` are selected by
the same model-family dispatch: an identifier containing
`anthropic.claude` gets the Claude messages format with the reply read
from `content[0].text`; otherwise one containing `amazon.titan` gets the
Titan `inputText` format with the reply read from
`results[0].outputText`; otherwise one containing `amazon.nova` gets the
Nova messages format with the reply read from
`output.message.content[0].text`; every other identifier gets the default
Claude-format body and Claude-style (defaulted) extraction. -/
theorem c1_model_family_dispatch (model_id prompt : String) (rb : JsonValue) :
    (pyIn "anthropic.claude" model_id = true →
      prepare_request_body model_id prompt =
        .claudeMessages "bedrock-2023-05-31" 4000 prompt (3 / 10) (9 / 10) ∧
      extract_reply model_id rb = readClaudeReply rb) ∧
    (pyIn "anthropic.claude" model_id = false → pyIn "amazon.titan" model_id = true →
      prepare_request_body model_id prompt = .titanInputText prompt 4000 (3 / 10) (9 / 10) ∧
      extract_reply model_id rb = readTitanReply rb) ∧
    (pyIn "anthropic.claude" model_id = false → pyIn "amazon.titan" model_id = false →
      pyIn "amazon.nova" model_id = true →
      prepare_request_body model_id prompt = .novaMessages prompt 4000 (3 / 10) (9 / 10) ∧
      extract_reply model_id rb = readNovaReply rb) ∧
    (pyIn "anthropic.claude" model_id = false → pyIn "amazon.titan" model_id = false →
      pyIn "amazon.nova" model_id = false →
      prepare_request_body model_id prompt =
        .claudeMessagesNoTopP "bedrock-2023-05-31" 4000 prompt (3 / 10) ∧
      extract_reply model_id rb = readDefaultReply rb) := by
  unfold prepare_request_body extract_reply
  refine ⟨fun h1 => ?_, fun h1 h2 => ?_, fun h1 h2 h3 => ?_, fun h1 h2 h3 => ?_⟩ <;>
    simp [h1]
  · simp [h2]
  · simp [h2, h3]
  · simp [h2, h3]

/-- C1 witness: the dispatch evaluated at one representative identifier
of each family. -/
theorem c1_witness :
    (prepare_request_body "anthropic.claude-3-sonnet-20240229-v1:0" "p" =
        .claudeMessages "bedrock-2023-05-31" 4000 "p" (3 / 10) (9 / 10) ∧
      extract_reply "anthropic.claude-3-sonnet-20240229-v1:0" (.obj []) =
        readClaudeReply (.obj [])) ∧
    (prepare_request_body "amazon.titan-text-express-v1" "p" =
        .titanInputText "p" 4000 (3 / 10) (9 / 10) ∧
      extract_reply "amazon.titan-text-express-v1" (.obj []) =
        readTitanReply (.obj [])) ∧
    (prepare_request_body "amazon.nova-micro-v1:0" "p" =
        .novaMessages "p" 4000 (3 / 10) (9 / 10) ∧
      extract_reply "amazon.nova-micro-v1:0" (.obj []) =
        readNovaReply (.obj [])) ∧
    (prepare_request_body "meta.llama3-70b-instruct-v1:0" "p" =
        .claudeMessagesNoTopP "bedrock-2023-05-31" 4000 "p" (3 / 10) ∧
      extract_reply "meta.llama3-70b-instruct-v1:0" (.obj []) =
        readDefaultReply (.obj [])) :=
  ⟨(c1_model_family_dispatch "anthropic.claude-3-sonnet-20240229-v1:0" "p" (.obj [])).1
      (by decide),
   (c1_model_family_dispatch "amazon.titan-text-express-v1" "p" (.obj [])).2.1
      (by decide) (by decide),
   (c1_model_family_dispatch "amazon.nova-micro-v1:0" "p" (.obj [])).2.2.1
      (by decide) (by decide) (by decide),
   (c1_model_family_dispatch "meta.llama3-70b-instruct-v1:0" "p" (.obj [])).2.2.2
      (by decide) (by decide) (by decide)⟩

/-- C4 counterexample: a `txt` file is converted by the local plain-text
reader, not by the document-OCR service with a local fallback, refuting
the claim that each of the four supported types goes through the OCR
service. -/
theorem c4_counterexample :
    extract_text_way "txt" = .ok .plainTextReader ∧
    ExtractionWay.plainTextReader ≠ ExtractionWay.textractWithPyPDF2Fallback := by
  exact ⟨rfl, by decide⟩

/-- C4 (amended): the extraction adapter dispatches on the lower-cased
file type: `pdf` is converted via the document-OCR service with the local
PyPDF2 fallback, `docx`/`doc` via python-docx, `json` via the JSON
parser, `txt` via the plain-text reader, and any other type raises an
unsupported-file-type error. -/
theorem c4_file_type_dispatch (file_type : String) :
    extract_text_way "pdf" = .ok .textractWithPyPDF2Fallback ∧
    extract_text_way "docx" = .ok .pythonDocx ∧
    extract_text_way "doc" = .ok .pythonDocx ∧
    extract_text_way "json" = .ok .jsonParsing ∧
    extract_text_way "txt" = .ok .plainTextReader ∧
    (pyLower file_type ∉ (["pdf", "docx", "doc", "json", "txt"] : List String) →
      extract_text_way file_type = .error ("Unsupported file type: " ++ pyLower file_type)) := by
  refine ⟨rfl, rfl, rfl, rfl, rfl, fun h => ?_⟩
  unfold extract_text_way
  simp only [List.mem_cons, List.not_mem_nil, or_false, not_or] at h
  rw [if_neg h.1, if_neg (by simp [h.2.1, h.2.2.1]), if_neg h.2.2.2.1,
    if_neg h.2.2.2.2]

/-- C4 witness: the unsupported branch evaluated at `csv`. -/
theorem c4_witness :
    extract_text_way "csv" = .error "Unsupported file type: csv" :=
  (c4_file_type_dispatch "csv").2.2.2.2.2 (by decide)

/-- C5: no request handler shares mutable state with another: processing
any request first leaves the module state unchanged, so the response to a
second request is the same whether or not the first was processed before
it. -/
theorem c5_request_independence {α β : Type} (env : Env α β) (st : Settings)
    (r1 r2 : Request) :
    (handle env (handle env st r1).2 r2).1 = (handle env st r2).1 ∧
    (handle env st r1).2 = st := by
  cases r1 <;> exact ⟨rfl, rfl⟩

/-- C6: `get_file_url` requests a presigned `get_object` URL whose
`ExpiresIn` is exactly the caller-supplied expiration (3600 seconds when
the route caller omits it) and returns that URL; when URL generation
fails it raises HTTP 500. -/
theorem c6_presigned_url (presign : PresignOracle) (bucket key : String)
    (expOpt : Option Int) (url err : String) :
    (presign ⟨"get_object", bucket, key, expOpt.getD 3600⟩ = .ok url →
      route_get_file_url presign bucket key expOpt =
        .ok ⟨true, url, expOpt.getD 3600⟩) ∧
    (presign ⟨"get_object", bucket, key, expOpt.getD 3600⟩ = .error err →
      route_get_file_url presign bucket key expOpt =
        .error ⟨500, "Failed to generate file access URL"⟩) := by
  unfold route_get_file_url get_file_url
  cases expOpt <;>
    exact ⟨fun h => by simp [Option.getD] at h; simp [h],
           fun h => by simp [Option.getD] at h; simp [h]⟩

/-- C6 witness: a succeeding presigner with the expiration omitted
(defaulting to 3600) and a failing presigner. -/
theorem c6_witness :
    route_get_file_url presignOk "bkt" "f.pdf" none =
      .ok ⟨true, "https://bkt.s3.amazonaws.com/f.pdf", 3600⟩ ∧
    route_get_file_url presignErr "bkt" "f.pdf" (some 60) =
      .error ⟨500, "Failed to generate file access URL"⟩ :=
  ⟨(c6_presigned_url presignOk "bkt" "f.pdf" none
      "https://bkt.s3.amazonaws.com/f.pdf" "").1 rfl,
   (c6_presigned_url presignErr "bkt" "f.pdf" (some 60) "" "AccessDenied").2 rfl⟩

/-- C2 counterexample: the completion `\x7b\x7d` (an empty JSON object)
cannot be parsed into the care-plan record shape, yet `generate_care_plan`
does not return the templated fallback plan: only `json.JSONDecodeError`
is caught, so the pydantic validation error escapes and the function
raises. -/
theorem c2_counterexample :
    generate_care_plan_parse samplePrescription "t0" "\x7b\x7d" =
      .raisedUnexpected
        "Unexpected error in care plan generation: patient_summary: required string" ∧
    generate_care_plan_parse samplePrescription "t0" "\x7b\x7d" ≠
      .plan (create_fallback_care_plan samplePrescription "\x7b\x7d" "t0") := by
  exact ⟨rfl, by decide⟩

/-- C2 (amended): `generate_care_plan` returns the templated fallback
plan exactly when the completion is not valid JSON
(`json.JSONDecodeError`); a completion that is valid JSON but fails
care-plan validation makes it raise instead. -/
theorem c2_fallback_on_decode_error (p : DoctorPrescription) (now content : String) :
    (jsonLoads (pyStrip content) = none →
      generate_care_plan_parse p now content =
        .plan (create_fallback_care_plan p content now)) ∧
    (∀ j e, jsonLoads (pyStrip content) = some j → carePlanOfJson now j = .error e →
      generate_care_plan_parse p now content =
        .raisedUnexpected ("Unexpected error in care plan generation: " ++ e)) := by
  unfold generate_care_plan_parse
  constructor
  · intro h
    rw [h]
  · intro j e hj he
    rw [hj]
    dsimp only
    rw [he]

/-- C2 witness: the fallback branch on a non-JSON completion and the
raising branch on a JSON array completion. -/
theorem c2_witness :
    generate_care_plan_parse samplePrescription "t1" "Here is your plan." =
      .plan (create_fallback_care_plan samplePrescription "Here is your plan." "t1") ∧
    generate_care_plan_parse samplePrescription "t1" "[]" =
      .raisedUnexpected
        "Unexpected error in care plan generation: keyword expansion requires a mapping" :=
  ⟨(c2_fallback_on_decode_error samplePrescription "t1" "Here is your plan.").1 rfl,
   (c2_fallback_on_decode_error samplePrescription "t1" "[]").2
      (.arr []) "keyword expansion requires a mapping" rfl rfl⟩

/-- C7: every plan `generate_care_plan` returns, whether validated from
the model completion or produced by the fallback, serializes to exactly
the fixed record shape: the eight declared fields in order, each section
carrying exactly title, content and priority; a section whose source JSON
has no priority key validates with priority "medium"; and on a JSON
decode failure the returned plan is exactly the templated fallback. -/
theorem c7_plan_shape (p : DoctorPrescription) (now content : String) (cp : CarePlan)
    (h : generate_care_plan_parse p now content = .plan cp) :
    (carePlanDict cp).map Prod.fst =
      ["patient_summary", "care_goals", "medication_management",
       "lifestyle_recommendations", "monitoring_schedule", "warning_signs",
       "follow_up_recommendations", "generated_at"] ∧
    (∀ s ∈ allSections cp, (sectionDict s).map Prod.fst = ["title", "content", "priority"]) ∧
    (∀ kvs s, dictGet kvs "priority" = none → sectionOfJson (.obj kvs) = .ok s →
      s.priority = "medium") ∧
    (jsonLoads (pyStrip content) = none → cp = create_fallback_care_plan p content now) := by
  refine ⟨rfl, fun s _ => rfl, fun kvs s hnone hok => ?_, fun hdec => ?_⟩
  · rcases ht : dictGet kvs "title" with _ | tv
    · simp [sectionOfJson, ht] at hok
    · rcases hc : dictGet kvs "content" with _ | cv
      · cases tv <;> simp [sectionOfJson, ht, hc] at hok
      · cases tv <;> cases cv <;>
          (simp [sectionOfJson, ht, hc, hnone] at hok; try simp [← hok])
  · unfold generate_care_plan_parse at h
    rw [hdec] at h
    cases h
    rfl

/-- C7 witness: the serialized fallback plan carries exactly the eight
fields. -/
theorem c7_witness :
    (carePlanDict (create_fallback_care_plan samplePrescription "no json here" "t2")).map
        Prod.fst =
      ["patient_summary", "care_goals", "medication_management",
       "lifestyle_recommendations", "monitoring_schedule", "warning_signs",
       "follow_up_recommendations", "generated_at"] :=
  (c7_plan_shape samplePrescription "t2" "no json here"
    (create_fallback_care_plan samplePrescription "no json here" "t2") rfl).1

/-- C8 counterexample: the single-space text is within the stated limits
(non-empty and at most 20000 characters), yet `/extract/ner-only` rejects
it with HTTP 400 instead of processing it, because the route also rejects
whitespace-only text. -/
theorem c8_counterexample :
    analyze_ner_only pyLen " " = .error ⟨400, "No text provided"⟩ ∧
    analyze_ner_only pyLen " " ≠ .ok (pyLen " ") ∧
    " " ≠ "" ∧ pyLen " " ≤ 20000 := by
  exact ⟨rfl, fun hcon => Except.noConfusion hcon, by decide, by decide⟩

/-- C8 (amended): `/extract/text-and-ner` and `/extract/text-only` reject
uploads over 10*1024*1024 bytes with HTTP 413 before invoking extraction
and process smaller uploads (that carry a filename); `/extract/ner-only`
rejects empty or whitespace-only text with HTTP 400 and longer-than-20000
character text with HTTP 413 before invoking entity recognition, and
processes non-blank text within the limit. -/
theorem c8_input_limits {α β : Type} (extractor : Nat → String → Bool → α)
    (ner : String → β) (filename content_type text : String) (size : Nat)
    (inc : Bool) :
    (size > 10 * 1024 * 1024 → filename ≠ "" →
      extract_text_and_ner extractor filename content_type size inc =
        .error ⟨413, "File size too large. Maximum size is 10MB."⟩ ∧
      extract_text_only extractor filename content_type size =
        .error ⟨413, "File size too large. Maximum size is 10MB."⟩) ∧
    (filename ≠ "" → size ≤ 10 * 1024 * 1024 →
      extract_text_and_ner extractor filename content_type size inc =
        .ok (extractor size (route_get_file_type filename content_type) inc) ∧
      extract_text_only extractor filename content_type size =
        .ok (extractor size (route_get_file_type filename content_type) false)) ∧
    (pyStrip text = "" → analyze_ner_only ner text = .error ⟨400, "No text provided"⟩) ∧
    (pyStrip text ≠ "" → pyLen text > 20000 →
      analyze_ner_only ner text =
        .error ⟨413, "Text too long. Maximum length is 20,000 characters."⟩) ∧
    (pyStrip text ≠ "" → pyLen text ≤ 20000 →
      analyze_ner_only ner text = .ok (ner text)) := by
  refine ⟨fun hbig hfn => ?_, fun hfn hsz => ?_, fun hblank => ?_,
    fun hnb hlong => ?_, fun hnb hshort => ?_⟩
  · unfold extract_text_and_ner extract_text_only
    rw [if_neg hfn, if_neg hfn]
    exact ⟨by rw [if_pos hbig], by rw [if_pos hbig]⟩
  · unfold extract_text_and_ner extract_text_only
    rw [if_neg hfn, if_neg hfn]
    exact ⟨by rw [if_neg (by omega)], by rw [if_neg (by omega)]⟩
  · unfold analyze_ner_only
    rw [if_pos (Or.inr hblank)]
  · unfold analyze_ner_only
    rw [if_neg ?_, if_pos hlong]
    intro hor
    rcases hor with he | hb
    · exact hnb (by rw [he]; rfl)
    · exact hnb hb
  · unfold analyze_ner_only
    rw [if_neg ?_, if_neg (by omega)]
    intro hor
    rcases hor with he | hb
    · exact hnb (by rw [he]; rfl)
    · exact hnb hb

/-- C8 witness: an oversized upload is rejected with 413, a small one is
processed; blank, oversized and ordinary texts hit their three NER
branches. -/
theorem c8_witness :
    extract_text_and_ner (fun n _ _ => n) "scan.pdf" "application/pdf" 10485761 true =
      .error ⟨413, "File size too large. Maximum size is 10MB."⟩ ∧
    extract_text_only (fun n _ _ => n) "scan.pdf" "application/pdf" 12 =
      .ok 12 ∧
    analyze_ner_only pyLen "aspirin 81mg" = .ok 12 :=
  ⟨((c8_input_limits (fun n _ _ => n) pyLen "scan.pdf" "application/pdf" "x"
      10485761 true).1 (by decide) (by decide)).1,
   ((c8_input_limits (fun n _ _ => n) pyLen "scan.pdf" "application/pdf" "x"
      12 true).2.1 (by decide) (by decide)).2,
   (c8_input_limits (fun n _ _ => n) pyLen "p" "t" "aspirin 81mg" 0 true).2.2.2.2
      (by decide) (by decide)⟩

/-- The UTF-8 length of a replicated character. -/
lemma utf8Len_mk_replicate (n : Nat) (c : Char) :
    utf8Len ⟨List.replicate n c⟩ = n * c.utf8Size := by
  unfold utf8Len
  simp [List.map_replicate, List.sum_replicate, smul_eq_mul]

/-- When every character is single-byte, `utf8Len` is the length. -/
lemma utf8Len_eq_length_of_single (l : List Char) (h : ∀ c ∈ l, c.utf8Size = 1) :
    (l.map Char.utf8Size).sum = l.length := by
  induction l with
  | nil => rfl
  | cons c rest ih =>
    simp only [List.map_cons, List.sum_cons, List.length_cons,
      h c (List.mem_cons_self c rest),
      ih (fun x hx => h x (List.mem_cons_of_mem c hx))]
    omega

/-- C9: `_perform_ner` submits the text unmodified when its UTF-8
encoding is at most 20000 bytes and otherwise submits exactly the first
20000 characters; truncation is by character count, so the submitted text
is guaranteed to fit in 20000 bytes only for single-byte text, and a
two-byte-character text is submitted at 40000 bytes. -/
theorem c9_ner_truncation (text : String) :
    (utf8Len text ≤ 20000 → perform_ner_input text = text) ∧
    (utf8Len text > 20000 → perform_ner_input text = pySlice text 20000) ∧
    ((∀ c ∈ text.data, c.utf8Size = 1) → utf8Len (perform_ner_input text) ≤ 20000) ∧
    20000 < utf8Len (perform_ner_input wideText) := by
  refine ⟨fun h => ?_, fun h => ?_, fun h => ?_, ?_⟩
  · unfold perform_ner_input
    rw [if_neg (by omega)]
  · unfold perform_ner_input
    rw [if_pos h]
  · unfold perform_ner_input
    by_cases hl : utf8Len text > 20000
    · rw [if_pos hl]
      show (((text.data.take 20000).map Char.utf8Size).sum : Nat) ≤ 20000
      rw [utf8Len_eq_length_of_single _ (fun c hc => h c (List.take_subset _ _ hc))]
      simp [List.length_take_le]
    · rw [if_neg hl]
      exact Nat.le_of_not_lt hl
  · have h1 : utf8Len wideText = 20001 * 2 := by
      unfold wideText
      rw [utf8Len_mk_replicate]
      norm_num [show Char.utf8Size 'é' = 2 from rfl]
    have h2 : perform_ner_input wideText = pySlice wideText 20000 := by
      unfold perform_ner_input
      rw [if_pos (by omega)]
    have h3 : pySlice wideText 20000 = ⟨List.replicate 20000 'é'⟩ := by
      unfold pySlice wideText
      rw [List.take_replicate]
      norm_num
    rw [h2, h3, utf8Len_mk_replicate]
    norm_num [show Char.utf8Size 'é' = 2 from rfl]

/-- C9 witness: short text passes through unmodified and single-byte text
stays within the byte limit. -/
theorem c9_witness :
    perform_ner_input "patient is stable" = "patient is stable" ∧
    utf8Len (perform_ner_input "patient is stable") ≤ 20000 :=
  ⟨(c9_ner_truncation "patient is stable").1 (by decide),
   (c9_ner_truncation "patient is stable").2.2.1 (by decide)⟩

/-- C3 counterexample: the PHI stage populates the name ("Alice Smith"),
and the line-based parsing of the line `Name: Bob` then overwrites it,
refuting the claim that NER/PHI-populated demographics are never
overwritten by the heuristic text parsing. -/
theorem c3_counterexample :
    phiEntityStep [] ⟨"PROTECTED_HEALTH_INFORMATION", "NAME", "Alice Smith"⟩ =
      [("name", "Alice Smith")] ∧
    dictGet (extract_medical_data_core noLineMatchers noFullTextMatchers "txt"
        ⟨"Name: Bob",
         some ⟨[], [⟨"PROTECTED_HEALTH_INFORMATION", "NAME", "Alice Smith"⟩]⟩⟩).patient_info
      "name" = some "Bob" ∧
    (some "Bob" : Option String) ≠ some "Alice Smith" := by
  exact ⟨rfl, rfl, by decide⟩

/-- C3 (amended): the PHI demographic application and the full-text regex
fallback never overwrite an already-populated `patient_info` field, but
the line-based parsing does overwrite populated fields (see the
counterexample). -/
theorem c3_fallback_only_when_absent (m : FullTextMatchers) (es : List PhiEntity)
    (pi vs : List (String × String)) (ftl k v : String)
    (h : dictGet pi k = some v) :
    dictGet (es.foldl phiEntityStep pi) k = some v ∧
    dictGet (fullTextStep m pi vs ftl).1 k = some v := by
  refine ⟨phiFold_preserves pi es k v h, ?_⟩
  unfold fullTextStep
  exact fullTextWeightStage_preserves m _ vs ftl k v
    (fullTextGenderStage_preserves m _ ftl k v
      (fullTextAgeStage_preserves m pi ftl k v h))

/-- C3 witness: an age populated as "45" survives both a PHI age entity
and the full-text fallback over a text containing another age. -/
theorem c3_witness :
    dictGet (([⟨"PHI", "AGE", "aged 99"⟩] : List PhiEntity).foldl phiEntityStep
      [("age", "45")]) "age" = some "45" ∧
    dictGet (fullTextStep noFullTextMatchers [("age", "45")] [] "aged 99").1
      "age" = some "45" :=
  c3_fallback_only_when_absent noFullTextMatchers [⟨"PHI", "AGE", "aged 99"⟩]
    [("age", "45")] [] "aged 99" "age" "45" rfl

/-- C10 counterexample: a top-level key containing "vital" mapped to an
empty dict does not stop the structured-JSON loop (the inner loop body
never runs, so no `UnboundLocalError` is raised), and a later key still
contributes medications, refuting the claim for arbitrary dicts. -/
theorem c10_counterexample :
    (processAll ⟨[], [], []⟩
      [("vitals", .obj []),
       ("medications", .arr [.obj [("name", .str "Aspirin"), ("dosage", .str "81mg")]])]).medications =
      [[("name", .str "Aspirin"), ("medication_name", .str "Aspirin"),
        ("dosage", .str "81mg"), ("duration", .str "As prescribed")]] ∧
    pyIn "vital" (pyLower "vitals") = true := by
  exact ⟨rfl, by decide⟩

/-- The vital-signs branch raises `UnboundLocalError` exactly when the
vital value is a non-empty dict. -/
lemma processJsonKey_vital_error (st : MedState) (k : String)
    (kvs : List (String × JsonValue)) (hk : pyIn "vital" (pyLower k) = true)
    (hne : kvs ≠ []) :
    ∃ st2, processJsonKey st k (.obj kvs) = .error st2 := by
  have hv : (pyIn "vital" (pyLower k) && jsonIsNonemptyObj (.obj kvs)) = true := by
    rw [hk]
    cases kvs with
    | nil => exact absurd rfl hne
    | cons a rest => rfl
  unfold processJsonKey
  dsimp only
  rw [hv, if_pos rfl]
  exact ⟨_, rfl⟩

/-- C10 (amended): when a top-level key whose lowercased name contains
"vital" is mapped to a non-empty dict, the structured-JSON loop stops at
that key (the reference to the not-yet-defined `vital_signs` raises, and
the bare `except` swallows it), so keys iterated after it contribute no
medications, conditions or patient-info entries; the endpoint still
returns a success response populated by the NER and regex stages. -/
theorem c10_vital_stops_loop (st : MedState) (pre suffix : List (String × JsonValue))
    (k : String) (kvs : List (String × JsonValue)) (lm : LineMatchers)
    (fm : FullTextMatchers) (fe : String) (res : ExtractionResult)
    (hk : pyIn "vital" (pyLower k) = true) (hne : kvs ≠ []) :
    processAll st (pre ++ (k, .obj kvs) :: suffix) =
      processAll st (pre ++ [(k, .obj kvs)]) ∧
    (extract_medical_data_response lm fm fe res).success = true := by
  refine ⟨?_, rfl⟩
  induction pre generalizing st with
  | nil =>
    obtain ⟨st2, hst2⟩ := processJsonKey_vital_error st k kvs hk hne
    simp only [List.nil_append, processAll, hst2]
  | cons p rest ih =>
    obtain ⟨k0, v0⟩ := p
    simp only [List.cons_append, processAll]
    cases hpk : processJsonKey st k0 v0 with
    | ok st2 => exact ih st2
    | error st2 => rfl

/-- C10 witness: with a non-empty vital dict in the middle, the keys after
it (here a medications list) contribute nothing, and the response reports
success. -/
theorem c10_witness :
    processAll ⟨[], [], []⟩
      [("diagnosis", .str "Flu"), ("vital_signs", .obj [("bp", .str "120/80")]),
       ("medications", .arr [.obj [("name", .str "Aspirin")]])] =
      processAll ⟨[], [], []⟩
        [("diagnosis", .str "Flu"), ("vital_signs", .obj [("bp", .str "120/80")])] ∧
    (extract_medical_data_response noLineMatchers noFullTextMatchers "txt"
      ⟨"", none⟩).success = true :=
  c10_vital_stops_loop ⟨[], [], []⟩ [("diagnosis", .str "Flu")]
    [("medications", .arr [.obj [("name", .str "Aspirin")]])] "vital_signs"
    [("bp", .str "120/80")] noLineMatchers noFullTextMatchers "txt" ⟨"", none⟩
    (by decide) (List.cons_ne_nil _ _)

end AIHealth
